import Mathlib

/-!
Verification of the `Dropdown` widget (src/lib/Dropdown.js).

The widget is a single stateful object.  We embed its observable state as a
Lean structure: the boolean flags `isOpened` / `isBrowsing`, the presence of
the `expanded` class on the root element (`hasOpenClass`), the configured
debounce delay (`timeout`, prototype default 400), and the configured
`openBy` mode string.  The caller-supplied callbacks `onOpen` / `onClose`
are opaque, so their invocations are recorded as counters; `onSelect`
invocations are recorded as a log of the elements passed to the callback
(the callback also receives the widget instance itself).

Timer behaviour (the `debounce` combinator and `setTimeout`) is modelled in
two complementary ways:
* `debounceFires` gives the trace semantics of one debounced closure: from
  the sorted list of instants at which the closure is invoked, the instants
  at which the wrapped function actually runs.
* `Machine` carries the widget state together with the pending timers of
  the two debounced methods built by `setDebouncedMethods` (`this.open`,
  `this.close`) and of the anonymous wrappers created in the `mouseover`
  branch of `handleEvent`; due timers fire in increasing order of their
  deadlines.
-/

/-- A DOM element as far as the widget observes one: whether it is
(reference-)equal to `this.trigger`, whether it is the menu or one of its
descendants (`this.menu.contains(target) || target === this.menu`), and the
value of its `disabled` attribute (`none` when the attribute is absent). -/
structure Elem where
  isTriggerEl : Bool
  inMenuEl : Bool
  disabledAttr : Option String
deriving DecidableEq

/-- Model of `element.getAttribute(name)`: `none` models the DOM's `null`.  Only the
`disabled` attribute is ever read by the widget. -/
def Elem.getAttribute (el : Elem) (name : String) : Option String :=
  if name = "disabled" then el.disabledAttr else none

/-- JavaScript truthiness of a `getAttribute` result: `null` is falsy and a
string is truthy exactly when it is nonempty. -/
def jsTruthyAttr : Option String → Bool
  | none => false
  | some s => decide (s ≠ "")

/-- JavaScript truthiness of the optional numeric `options.wait`:
`undefined` and `0` are falsy, any other number is truthy. -/
def jsTruthyNum : Option Nat → Bool
  | none => false
  | some n => decide (n ≠ 0)

/-- Observable state of one `Dropdown` instance. -/
structure DropdownState where
  /-- Field `this.isOpened` (prototype default `false`). -/
  isOpened : Bool
  /-- Field `this.isBrowsing` (prototype default `false`). -/
  isBrowsing : Bool
  /-- whether `this.el.classList` contains `openClass` (`'expanded'`). -/
  hasOpenClass : Bool
  /-- Field `this.timeout`, the debounce delay in ms (prototype default `400`). -/
  timeout : Nat
  /-- Field `this.openBy`, the configured trigger mode string. -/
  openBy : String
  /-- number of `onOpen(this)` invocations so far. -/
  onOpenCount : Nat
  /-- number of `onClose(this)` invocations so far. -/
  onCloseCount : Nat
  /-- elements passed to `onSelect(this, element)`, in order. -/
  selectLog : List Elem
deriving DecidableEq

namespace Dropdown

/-- Method `Dropdown.prototype._open`: no-op when already opened, otherwise adds
the `expanded` class, sets `isOpened`, and invokes `onOpen(this)`. -/
def _open (s : DropdownState) : DropdownState :=
  if s.isOpened then s
  else { s with hasOpenClass := true, isOpened := true,
                onOpenCount := s.onOpenCount + 1 }

/-- Method `Dropdown.prototype._close`: returns early when
`(isBrowsing && isOpened) || !isOpened`, otherwise removes the `expanded`
class, clears `isOpened`, and invokes `onClose(this)`. -/
def _close (s : DropdownState) : DropdownState :=
  if (s.isBrowsing && s.isOpened) || !s.isOpened then s
  else { s with hasOpenClass := false, isOpened := false,
                onCloseCount := s.onCloseCount + 1 }

/-- Method `Dropdown.prototype.toggle`: `_close` when opened, `_open` otherwise. -/
def toggle (s : DropdownState) : DropdownState :=
  if s.isOpened then _close s else _open s

/-- Method `Dropdown.prototype.onBrowse`: sets `isBrowsing`. -/
def onBrowse (s : DropdownState) : DropdownState :=
  { s with isBrowsing := true }

/-- Method `Dropdown.prototype.onEndBrowse`: clears `isBrowsing`. -/
def onEndBrowse (s : DropdownState) : DropdownState :=
  { s with isBrowsing := false }

/-- Method `Dropdown.prototype.select`: reads `element.getAttribute('disabled')`,
returns early when it is truthy, otherwise invokes
`onSelect(this, element)`. -/
def select (s : DropdownState) (element : Elem) : DropdownState :=
  let isDisabled := jsTruthyAttr (Elem.getAttribute element ("disabled"))
  if isDisabled then s
  else { s with selectLog := s.selectLog ++ [element] }

/-- Method `Dropdown.prototype.initialize` (here `initState`): sets
`this.isOpened = this.el.classList.contains(this.openClass)`.  The two
further calls it makes, `setDebouncedMethods` and `registerEventsHandlers`,
build the debounced methods (modelled by `Machine.callOpen` /
`Machine.callClose` below) and register listeners (modelled by
`registerToggleHandlers` below); neither touches the fields embedded in
`DropdownState`. -/
def initState (s : DropdownState) : DropdownState :=
  { s with isOpened := s.hasOpenClass }

/-- The recognised construction options: `options.wait` (absent = `none`),
`options.openBy`, and whether `options.el`'s class list already contains
`'expanded'` when the constructor runs. -/
structure Options where
  wait : Option Nat
  openBy : String
  hasOpenClassInit : Bool
deriving DecidableEq

/-- The `Dropdown` constructor: starts from the prototype defaults
(`isOpened = false`, `isBrowsing = false`, `timeout = 400`), copies
`options.openBy`, overrides `this.timeout` with `options.wait` only when
that value is truthy, and ends by calling `initState`. -/
def construct (o : Options) : DropdownState :=
  let s : DropdownState :=
    { isOpened := false, isBrowsing := false,
      hasOpenClass := o.hasOpenClassInit, timeout := 400,
      openBy := o.openBy, onOpenCount := 0, onCloseCount := 0,
      selectLog := [] }
  let s := if jsTruthyNum o.wait then { s with timeout := o.wait.getD 400 }
           else s
  initState s

/-- Method `Dropdown.prototype.registerToggleHandlers`, rendered as the list of
(listener target, event type) registrations it performs: the `hover` case
adds the four pointer listeners, every other `openBy` value adds the
trigger click listener, and both cases then register the menu click and the
global `window` click listener. -/
def registerToggleHandlers (openBy : String) : List (String × String) :=
  (match openBy with
   | "hover" =>
     [("trigger", "mouseover"), ("trigger", "mouseout"),
      ("menu", "mouseover"), ("menu", "mouseout")]
   | _ => [("trigger", "click")])
  ++ [("menu", "click"), ("window", "click")]

end Dropdown

/-! ## Timer semantics of the `debounce` combinator

`debounce(fn, time)` keeps one `timeout` handle per closure.  Every call
does `clearTimeout(timeout)` and re-arms `setTimeout(..., time)`, so from a
sorted list of call instants the wrapped `fn` runs at `t + time` exactly
for those calls `t` that are not followed by another call strictly before
`t + time`. -/

/-- Trace semantics of one `debounce(fn, time)` closure: the instants at
which `fn` runs, given the sorted instants at which the closure is
invoked. -/
def debounceFires (delay : Nat) : List Nat → List Nat
  | [] => []
  | [t] => [t + delay]
  | t1 :: t2 :: rest =>
    if t2 < t1 + delay then debounceFires delay (t2 :: rest)
    else (t1 + delay) :: debounceFires delay (t2 :: rest)

/-- Running `this._open` (bound to the widget) once per fire instant, the
effect on the widget state of a burst handled by the debounced `open`. -/
def applyOpenFires (s : DropdownState) (fires : List Nat) : DropdownState :=
  fires.foldl (fun acc _ => Dropdown._open acc) s

/-- The `mouseover` branch of `handleEvent` runs
`debounce(this.open.bind(this), timeout)()`: a fresh wrapper, invoked
exactly once at instant `t`, whose single timer therefore calls the
debounced `this.open` at `t + timeout` (`debounceFires delay [t] =
[t + delay]`).  A burst of trigger `mouseover`s at instants `ts` hence
invokes the debounced `open` at instants `ts.map (t + delay)`. -/
def hoverInnerCalls (delay : Nat) (ts : List Nat) : List Nat :=
  ts.map (fun t => t + delay)

/-- Instants at which `_open` actually runs for a burst of hover
`mouseover`s on the trigger: the inner debounced `open` is itself invoked
through `debounce`, so its trace is a second application of
`debounceFires`. -/
def hoverOpenFires (delay : Nat) (ts : List Nat) : List Nat :=
  debounceFires delay (hoverInnerCalls delay ts)

/-- Which timer fired: an anonymous hover wrapper timer, the timer of the
debounced `this.open`, or the timer of the debounced `this.close`. -/
inductive TimerKind where
  | wrapper
  | debOpen
  | debClose
deriving DecidableEq

/-- Widget state together with the pending `setTimeout` deadlines: at most
one for each of the two debounced methods built by `setDebouncedMethods`
(a later call to the same method clears the previous timer), plus the
never-cleared timers of the anonymous wrappers created by the `mouseover`
branch of `handleEvent`. -/
structure Machine where
  ds : DropdownState
  pendingOpen : Option Nat
  pendingClose : Option Nat
  wrapperOpens : List Nat
deriving DecidableEq

namespace Machine

/-- A machine for a widget with no timer pending. -/
def init (s : DropdownState) : Machine :=
  { ds := s, pendingOpen := none, pendingClose := none, wrapperOpens := [] }

/-- Invoking the debounced `this.open` at instant `t`: clear its previous
timer (if any) and re-arm it for `t + this.timeout`. -/
def callOpen (m : Machine) (t : Nat) : Machine :=
  { m with pendingOpen := some (t + m.ds.timeout) }

/-- Invoking the debounced `this.close` at instant `t`: clear its previous
timer (if any) and re-arm it for `t + this.timeout`. -/
def callClose (m : Machine) (t : Nat) : Machine :=
  { m with pendingClose := some (t + m.ds.timeout) }

/-- All armed timers with their deadlines, wrapper timers first. -/
def timers (m : Machine) : List (Nat × TimerKind) :=
  m.wrapperOpens.map (fun f => (f, TimerKind.wrapper))
    ++ (match m.pendingOpen with
        | some f => [(f, TimerKind.debOpen)]
        | none => [])
    ++ (match m.pendingClose with
        | some f => [(f, TimerKind.debClose)]
        | none => [])

/-- The armed timer with the least deadline (earlier entry of `timers` on a
tie, matching `setTimeout` insertion order for timers armed at the same
instant with the same delay). -/
def nextTimer (m : Machine) : Option (Nat × TimerKind) :=
  m.timers.foldl
    (fun acc p =>
      match acc with
      | none => some p
      | some q => if p.1 < q.1 then some p else some q)
    none

/-- Effect of one timer firing at its deadline `f`: a wrapper timer invokes
the debounced `this.open` at `f`; the `this.open` timer runs `_open`; the
`this.close` timer runs `_close`. -/
def fireTimer (m : Machine) : Nat × TimerKind → Machine
  | (f, TimerKind.wrapper) =>
    callOpen { m with wrapperOpens := m.wrapperOpens.erase f } f
  | (_, TimerKind.debOpen) =>
    { m with ds := Dropdown._open m.ds, pendingOpen := none }
  | (_, TimerKind.debClose) =>
    { m with ds := Dropdown._close m.ds, pendingClose := none }

/-- Fire, in deadline order, every timer whose deadline is at most `t`;
`fuel` bounds the number of fires. -/
def fireDueFuel : Nat → Nat → Machine → Machine
  | 0, _, m => m
  | fuel + 1, t, m =>
    match m.nextTimer with
    | some p => if p.1 ≤ t then fireDueFuel fuel t (m.fireTimer p) else m
    | none => m

/-- Fire every timer due at or before instant `t`.  Each wrapper fire can
re-arm `pendingOpen` once, so `2 * wrapper count + 2` fires suffice. -/
def fireDue (m : Machine) (t : Nat) : Machine :=
  fireDueFuel (2 * m.wrapperOpens.length + 2) t m

/-- Let every remaining timer run out, in deadline order. -/
def flushFuel : Nat → Machine → Machine
  | 0, m => m
  | fuel + 1, m =>
    match m.nextTimer with
    | some p => flushFuel fuel (m.fireTimer p)
    | none => m

/-- Run every remaining timer to completion. -/
def flush (m : Machine) : Machine :=
  flushFuel (2 * m.wrapperOpens.length + 2) m

end Machine

/-- A programmatic invocation of one of the two debounced methods at a
given instant. -/
inductive CallEv where
  | openAt (t : Nat)
  | closeAt (t : Nat)
deriving DecidableEq

/-- Process one debounced-method invocation: timers due before the call
instant have already fired, then the method re-arms its own timer. -/
def Machine.stepCall (m : Machine) : CallEv → Machine
  | CallEv.openAt t => (m.fireDue t).callOpen t
  | CallEv.closeAt t => (m.fireDue t).callClose t

/-- Run a time-ordered sequence of debounced-method invocations and then
let all remaining timers run out. -/
def Machine.runCalls (m : Machine) (evs : List CallEv) : Machine :=
  (evs.foldl Machine.stepCall m).flush

/-- A DOM event as `handleEvent` observes it: `event.type` and
`event.target`. -/
structure DomEvent where
  type : String
  target : Elem
deriving DecidableEq

/-- Method `Dropdown.prototype.handleEvent`, dispatching on `event.type` at
instant `t`.  The returned `Bool` records whether `stopPropagation` was
called.  The `mouseover` trigger branch runs
`debounce(this.open.bind(this), timeout)()`, arming a fresh, never-cleared
wrapper timer for `t + timeout`; the `mouseout` branches invoke the
debounced `this.close`; the `click` branches run synchronously. -/
def Dropdown.handleEvent (t : Nat) (event : DomEvent) (m : Machine) :
    Machine × Bool :=
  let isTrigger := event.target.isTriggerEl
  let isMenu := event.target.inMenuEl
  match event.type with
  | "mouseover" =>
    let m1 := if isTrigger then
                { m with wrapperOpens := m.wrapperOpens ++ [t + m.ds.timeout] }
              else m
    let m2 := if isMenu then { m1 with ds := Dropdown.onBrowse m1.ds } else m1
    (m2, false)
  | "mouseout" =>
    let m1 := if isTrigger then m.callClose t else m
    let m2 := if isMenu then
                (Machine.callClose { m1 with ds := Dropdown.onEndBrowse m1.ds } t)
              else m1
    (m2, false)
  | "click" =>
    if isTrigger then ({ m with ds := Dropdown.toggle m.ds }, true)
    else if isMenu then
      ({ m with ds := Dropdown.select m.ds event.target }, true)
    else if !isMenu then ({ m with ds := Dropdown._close m.ds }, false)
    else (m, false)
  | _ => (m, false)

/-! ## Sample states and elements used by the concrete witnesses -/

/-- A closed, non-browsing widget with the default configuration. -/
def sampleClosed : DropdownState :=
  { isOpened := false, isBrowsing := false, hasOpenClass := false,
    timeout := 400, openBy := "click", onOpenCount := 0, onCloseCount := 0,
    selectLog := [] }

/-- An opened, non-browsing widget with the default configuration. -/
def sampleOpened : DropdownState :=
  { sampleClosed with isOpened := true, hasOpenClass := true }

/-- An opened widget whose pointer is inside the menu. -/
def sampleBrowsing : DropdownState :=
  { sampleOpened with isBrowsing := true }

/-- A menu item whose `disabled` attribute is present with an empty value
(the markup `<li disabled>`). -/
def itemEmptyDisabled : Elem :=
  { isTriggerEl := false, inMenuEl := true, disabledAttr := some "" }

/-- A menu item without a `disabled` attribute. -/
def itemEnabled : Elem :=
  { isTriggerEl := false, inMenuEl := true, disabledAttr := none }

/-- A menu item whose `disabled` attribute has a nonempty value. -/
def itemDisabled : Elem :=
  { isTriggerEl := false, inMenuEl := true, disabledAttr := some "disabled" }

/-- A click target that is neither the trigger nor inside the menu. -/
def outsideTarget : Elem :=
  { isTriggerEl := false, inMenuEl := false, disabledAttr := none }

/-! ## C1: toggle is the synchronous transition -/

/-- C1: for every widget state, `toggle()` on a closed widget is exactly
the immediate `_open` transition (no debounce timer involved): it opens
the widget and invokes `onOpen` once.  On an opened widget it is exactly
the immediate `_close` transition, still subject to the browse-suppression
guard: while `isBrowsing` it changes nothing, and while not browsing it
closes the widget and invokes `onClose` once. -/
theorem toggle_synchronous_spec (s : DropdownState) :
    (s.isOpened = false →
      Dropdown.toggle s = Dropdown._open s ∧
      (Dropdown.toggle s).isOpened = true ∧
      (Dropdown.toggle s).onOpenCount = s.onOpenCount + 1) ∧
    (s.isOpened = true →
      Dropdown.toggle s = Dropdown._close s ∧
      (s.isBrowsing = true → Dropdown.toggle s = s) ∧
      (s.isBrowsing = false →
        (Dropdown.toggle s).isOpened = false ∧
        (Dropdown.toggle s).onCloseCount = s.onCloseCount + 1)) := by
  constructor
  · intro h
    simp [Dropdown.toggle, Dropdown._open, h]
  · intro h
    refine ⟨by simp [Dropdown.toggle, h], ?_, ?_⟩
    · intro hb
      simp [Dropdown.toggle, Dropdown._close, h, hb]
    · intro hb
      simp [Dropdown.toggle, Dropdown._close, h, hb]

/-- Concrete instance of `toggle_synchronous_spec`: toggling the sample
closed widget opens it, toggling the sample opened widget closes it. -/
theorem toggle_synchronous_spec_witness :
    (Dropdown.toggle sampleClosed).isOpened = true ∧
    (Dropdown.toggle sampleOpened).isOpened = false := by
  refine ⟨((toggle_synchronous_spec sampleClosed).1 rfl).2.1, ?_⟩
  exact (((toggle_synchronous_spec sampleOpened).2 rfl).2.2 rfl).1

/-! ## C3: browse suppression -/

/-- While browsing, `_close` is the identity on the widget state. -/
theorem close_id_of_browsing {s : DropdownState} (h : s.isBrowsing = true) :
    Dropdown._close s = s := by
  cases hO : s.isOpened <;> simp [Dropdown._close, h, hO]

/-- C3: in every widget state with `isBrowsing = true`, any number of
`_close()` calls leave `isOpened` unchanged, leave the `expanded` marker
unchanged, and never invoke `onClose`. -/
theorem close_suppressed_while_browsing (s : DropdownState) (n : Nat)
    (h : s.isBrowsing = true) :
    (Dropdown._close^[n] s).isOpened = s.isOpened ∧
    (Dropdown._close^[n] s).hasOpenClass = s.hasOpenClass ∧
    (Dropdown._close^[n] s).onCloseCount = s.onCloseCount := by
  rw [Function.iterate_fixed (close_id_of_browsing h) n]
  exact ⟨rfl, rfl, rfl⟩

/-- Concrete instance of `close_suppressed_while_browsing`: five `_close`
calls on the browsing sample widget change nothing observable. -/
theorem close_suppressed_while_browsing_witness :
    (Dropdown._close^[5] sampleBrowsing).isOpened = sampleBrowsing.isOpened ∧
    (Dropdown._close^[5] sampleBrowsing).hasOpenClass =
      sampleBrowsing.hasOpenClass ∧
    (Dropdown._close^[5] sampleBrowsing).onCloseCount =
      sampleBrowsing.onCloseCount :=
  close_suppressed_while_browsing sampleBrowsing 5 rfl

/-! ## C6: idempotence of the immediate transitions -/

/-- C6: `_open()` on an opened widget and `_close()` on a closed widget
are exact no-ops: the whole state (in particular `isOpened`, `isBrowsing`
and the `expanded` marker) is unchanged and no callback is invoked. -/
theorem open_close_idempotent (s : DropdownState) :
    (s.isOpened = true → Dropdown._open s = s) ∧
    (s.isOpened = false → Dropdown._close s = s) := by
  constructor
  · intro h
    simp [Dropdown._open, h]
  · intro h
    simp [Dropdown._close, h]

/-- Concrete instance of `open_close_idempotent` at the sample states. -/
theorem open_close_idempotent_witness :
    Dropdown._open sampleOpened = sampleOpened ∧
    Dropdown._close sampleClosed = sampleClosed :=
  ⟨(open_close_idempotent sampleOpened).1 rfl,
   (open_close_idempotent sampleClosed).2 rfl⟩

/-! ## C4: the disabled guard in `select`

The guard tests JavaScript truthiness of `getAttribute('disabled')`, not
attribute presence.  An attribute that is present with the empty string as
value (the markup `<li disabled>`) yields `""`, which is falsy, so
`onSelect` fires even though the item carries the marker. -/

/-- C4 counterexample: `itemEmptyDisabled` carries the `disabled` marker
(`getAttribute` returns `""`, not `null`), yet `select` invokes `onSelect`
on it, contradicting the claim that an item carrying the marker never
reaches the callback. -/
theorem select_empty_disabled_attr_fires :
    Elem.getAttribute itemEmptyDisabled ("disabled") = some "" ∧
    ¬ (Dropdown.select sampleClosed itemEmptyDisabled).selectLog =
        sampleClosed.selectLog := by
  constructor
  · rfl
  · decide

/-- C4 amended: `select(item)` never invokes `onSelect` when the item's
`disabled` attribute is truthy (present with a nonempty value) — the call
is a complete no-op — and invokes `onSelect` exactly once per call,
passing the item, when the attribute is absent or has the empty value. -/
theorem select_disabled_guard_spec (s : DropdownState) (el : Elem) :
    (jsTruthyAttr (Elem.getAttribute el ("disabled")) = true →
      Dropdown.select s el = s) ∧
    (jsTruthyAttr (Elem.getAttribute el ("disabled")) = false →
      Dropdown.select s el = { s with selectLog := s.selectLog ++ [el] }) := by
  constructor
  · intro h
    simp [Dropdown.select, h]
  · intro h
    simp [Dropdown.select, h]

/-- Concrete instance of `select_disabled_guard_spec`: a truthy-disabled
item is ignored, an attribute-free item is logged exactly once. -/
theorem select_disabled_guard_spec_witness :
    Dropdown.select sampleOpened itemDisabled = sampleOpened ∧
    Dropdown.select sampleOpened itemEnabled =
      { sampleOpened with selectLog := sampleOpened.selectLog ++ [itemEnabled] } :=
  ⟨(select_disabled_guard_spec sampleOpened itemDisabled).1 rfl,
   (select_disabled_guard_spec sampleOpened itemEnabled).2 rfl⟩

/-! ## C5: click outside dismisses immediately -/

/-- C5: an activation (`click`) event whose target is neither the trigger
nor the menu nor a menu descendant, handled while the widget is opened and
not browsing, performs the immediate `_close` transition: `isOpened`
becomes false, the `expanded` marker is removed, `onClose` is invoked
once, and no debounce timer is armed or altered.  The global `window`
click listener that delivers such events is registered in every
`openBy` mode. -/
theorem outside_click_immediate_close (t : Nat) (event : DomEvent)
    (m : Machine) (hty : event.type = "click")
    (htr : event.target.isTriggerEl = false)
    (hmen : event.target.inMenuEl = false)
    (hop : m.ds.isOpened = true) (hbr : m.ds.isBrowsing = false) :
    ((Dropdown.handleEvent t event m).1.ds = Dropdown._close m.ds ∧
      (Dropdown.handleEvent t event m).1.ds.isOpened = false ∧
      (Dropdown.handleEvent t event m).1.ds.hasOpenClass = false ∧
      (Dropdown.handleEvent t event m).1.ds.onCloseCount =
        m.ds.onCloseCount + 1) ∧
    (Dropdown.handleEvent t event m).1.pendingOpen = m.pendingOpen ∧
    (Dropdown.handleEvent t event m).1.pendingClose = m.pendingClose ∧
    (Dropdown.handleEvent t event m).1.wrapperOpens = m.wrapperOpens ∧
    ("window", "click") ∈ Dropdown.registerToggleHandlers m.ds.openBy := by
  have hclose : Dropdown._close m.ds =
      { m.ds with hasOpenClass := false, isOpened := false,
                  onCloseCount := m.ds.onCloseCount + 1 } := by
    simp [Dropdown._close, hop, hbr]
  refine ⟨?_, ?_, ?_, ?_, ?_⟩
  · simp [Dropdown.handleEvent, hty, htr, hmen, hclose]
  · simp [Dropdown.handleEvent, hty, htr, hmen]
  · simp [Dropdown.handleEvent, hty, htr, hmen]
  · simp [Dropdown.handleEvent, hty, htr, hmen]
  · unfold Dropdown.registerToggleHandlers
    split <;> simp

/-- Concrete instance of `outside_click_immediate_close`: a click on an
outside target closes the sample opened widget at once. -/
theorem outside_click_immediate_close_witness :
    ((Dropdown.handleEvent 7 { type := "click", target := outsideTarget }
        (Machine.init sampleOpened)).1.ds =
      Dropdown._close sampleOpened ∧
      (Dropdown.handleEvent 7 { type := "click", target := outsideTarget }
        (Machine.init sampleOpened)).1.ds.isOpened = false ∧
      (Dropdown.handleEvent 7 { type := "click", target := outsideTarget }
        (Machine.init sampleOpened)).1.ds.hasOpenClass = false ∧
      (Dropdown.handleEvent 7 { type := "click", target := outsideTarget }
        (Machine.init sampleOpened)).1.ds.onCloseCount =
        sampleOpened.onCloseCount + 1) ∧
    (Dropdown.handleEvent 7 { type := "click", target := outsideTarget }
      (Machine.init sampleOpened)).1.pendingOpen =
      (Machine.init sampleOpened).pendingOpen ∧
    (Dropdown.handleEvent 7 { type := "click", target := outsideTarget }
      (Machine.init sampleOpened)).1.pendingClose =
      (Machine.init sampleOpened).pendingClose ∧
    (Dropdown.handleEvent 7 { type := "click", target := outsideTarget }
      (Machine.init sampleOpened)).1.wrapperOpens =
      (Machine.init sampleOpened).wrapperOpens ∧
    ("window", "click") ∈
      Dropdown.registerToggleHandlers (Machine.init sampleOpened).ds.openBy :=
  outside_click_immediate_close 7 { type := "click", target := outsideTarget }
    (Machine.init sampleOpened) rfl rfl rfl rfl rfl

/-! ## C7: initial state bootstrapped from the visual marker -/

/-- C7: immediately after the constructor returns, `isOpened` equals
whether the widget's region already carried the `expanded` marker when the
constructor ran (the source reads the marker on the root element
`this.el`); it is not assumed false. -/
theorem isOpened_bootstrap_from_marker (o : Dropdown.Options) :
    (Dropdown.construct o).isOpened = o.hasOpenClassInit := by
  unfold Dropdown.construct Dropdown.initState
  split <;> rfl

/-! ## C10: the wait option only overrides the default when truthy -/

/-- C10: a configuration whose `wait` option is absent or `0` leaves the
prototype default delay `400` in effect, because the constructor only
overrides `this.timeout` when `options.wait` is truthy; any nonzero `wait`
is used as given. -/
theorem wait_option_truthy_override (o : Dropdown.Options) :
    (o.wait = none → (Dropdown.construct o).timeout = 400) ∧
    (o.wait = some 0 → (Dropdown.construct o).timeout = 400) ∧
    (∀ w : Nat, o.wait = some w → w ≠ 0 →
      (Dropdown.construct o).timeout = w) := by
  refine ⟨?_, ?_, ?_⟩
  · intro h
    simp [Dropdown.construct, Dropdown.initState, jsTruthyNum, h]
  · intro h
    simp [Dropdown.construct, Dropdown.initState, jsTruthyNum, h]
  · intro w h hw
    simp [Dropdown.construct, Dropdown.initState, jsTruthyNum, h, hw]

/-- Concrete instance of `wait_option_truthy_override`: `wait = 0` keeps
the default `400`, `wait = 250` is used as given. -/
theorem wait_option_truthy_override_witness :
    (Dropdown.construct
      { wait := some 0, openBy := "click", hasOpenClassInit := false }).timeout
      = 400 ∧
    (Dropdown.construct
      { wait := some 250, openBy := "hover", hasOpenClassInit := false }).timeout
      = 250 :=
  ⟨(wait_option_truthy_override
      { wait := some 0, openBy := "click", hasOpenClassInit := false }).2.1 rfl,
   (wait_option_truthy_override
      { wait := some 250, openBy := "hover", hasOpenClassInit := false }).2.2
     250 rfl (by decide)⟩

/-! ## C2: debounce collapse -/

/-- A burst of invocations of one debounced closure, each (weakly) after
the previous one and strictly inside its debounce window, produces exactly
one run of the wrapped function, `delay` after the last invocation. -/
theorem debounceFires_collapse (delay : Nat) :
    ∀ (ts : List Nat) (tl : Nat), ts.getLast? = some tl →
      ts.Chain' (fun a b => b < a + delay) →
      debounceFires delay ts = [tl + delay] := by
  intro ts
  induction ts with
  | nil => intro tl h _; simp at h
  | cons t rest ih =>
    intro tl h hc
    cases rest with
    | nil =>
      simp at h
      simp [debounceFires, h]
    | cons t2 rs =>
      rw [List.chain'_cons] at hc
      have hlast : (t2 :: rs).getLast? = some tl := by
        rwa [List.getLast?_cons_cons] at h
      have hred : debounceFires delay (t :: t2 :: rs)
          = debounceFires delay (t2 :: rs) := by
        simp [debounceFires, hc.1]
      rw [hred]
      exact ih tl hlast hc.2

/-- C2: for every burst of `N ≥ 1` calls to the debounced `open()` with
less than `debounceDelayMs` between consecutive calls (each call within
the window cancels the pending timer and restarts it), `_open` runs
exactly once, `debounceDelayMs` after the last call, and on an initially
closed widget `onOpen` is invoked exactly once. -/
theorem debounced_open_burst_collapse (delay : Nat) (ts : List Nat)
    (tl : Nat) (s : DropdownState)
    (hlast : ts.getLast? = some tl)
    (hrapid : ts.Chain' (fun a b => a ≤ b ∧ b < a + delay))
    (hclosed : s.isOpened = false) :
    debounceFires delay ts = [tl + delay] ∧
    (debounceFires delay ts).length = 1 ∧
    (applyOpenFires s (debounceFires delay ts)).onOpenCount =
      s.onOpenCount + 1 := by
  have hfire : debounceFires delay ts = [tl + delay] :=
    debounceFires_collapse delay ts tl hlast (hrapid.imp fun _ _ h => h.2)
  refine ⟨hfire, by rw [hfire]; rfl, ?_⟩
  rw [hfire]
  simp [applyOpenFires, Dropdown._open, hclosed]

/-- Concrete instance of `debounced_open_burst_collapse`: three calls at
instants 0, 100, 300 with delay 400 give a single `_open` run at 700. -/
theorem debounced_open_burst_collapse_witness :
    debounceFires 400 [0, 100, 300] = [700] ∧
    (debounceFires 400 [0, 100, 300]).length = 1 ∧
    (applyOpenFires sampleClosed (debounceFires 400 [0, 100, 300])).onOpenCount
      = sampleClosed.onOpenCount + 1 :=
  debounced_open_burst_collapse 400 [0, 100, 300] 300 sampleClosed
    (by decide) (by simp [List.chain'_cons]) rfl

/-! ## C8: hover mode double-debounces the open path -/

/-- C8: in hover mode a burst of trigger `mouseover`s at instants `ts`
(consecutive gaps inside the debounce window) makes `_open` run exactly
once, and that run comes strictly through the double debounce: it happens
at `tl + 2 * delay`, i.e. after the debounce window `delay` has elapsed
from the last qualifying pointer-enter `tl` (every fire instant is at or
beyond `tl + delay`). -/
theorem hover_double_debounce_fire (delay : Nat) (ts : List Nat) (tl : Nat)
    (hlast : ts.getLast? = some tl)
    (hrapid : ts.Chain' (fun a b => a ≤ b ∧ b < a + delay)) :
    hoverOpenFires delay ts = [tl + 2 * delay] ∧
    ∀ f ∈ hoverOpenFires delay ts, tl + delay ≤ f := by
  have hlast2 : (hoverInnerCalls delay ts).getLast? = some (tl + delay) := by
    simp [hoverInnerCalls, List.getLast?_map, hlast]
  have hchain : (hoverInnerCalls delay ts).Chain'
      (fun a b => b < a + delay) := by
    rw [hoverInnerCalls, List.chain'_map]
    exact hrapid.imp fun _ _ h => by omega
  have hfire : hoverOpenFires delay ts = [tl + delay + delay] :=
    debounceFires_collapse delay _ _ hlast2 hchain
  have harith : tl + delay + delay = tl + 2 * delay := by omega
  constructor
  · rw [hfire, harith]
  · intro f hf
    rw [hfire] at hf
    simp at hf
    omega

/-- Concrete instance of `hover_double_debounce_fire`: trigger
`mouseover`s at 0, 100, 300 with delay 400 run `_open` once, at 1100. -/
theorem hover_double_debounce_fire_witness :
    hoverOpenFires 400 [0, 100, 300] = [1100] :=
  (hover_double_debounce_fire 400 [0, 100, 300] 300 (by decide)
    (by simp [List.chain'_cons])).1

/-! ## C9: the two debounced methods keep independent timer state -/

/-- C9: invoking the debounced `close` never touches the pending timer of
the debounced `open`, and vice versa; consequently, in a run where the
debounced `open` is invoked at `t1` and the debounced `close` at `t2`
inside the open window (`t1 ≤ t2 < t1 + timeout`) on a closed,
non-browsing widget, the pending open still fires: `_open` runs and
`onOpen` is invoked exactly once. -/
theorem debounce_timers_independent (tc : Nat) (mc : Machine)
    (s : DropdownState) (t1 t2 : Nat)
    (h12 : t1 ≤ t2) (hwin : t2 < t1 + s.timeout)
    (hcl : s.isOpened = false) (hbr : s.isBrowsing = false) :
    (mc.callClose tc).pendingOpen = mc.pendingOpen ∧
    (mc.callOpen tc).pendingClose = mc.pendingClose ∧
    ((Machine.init s).runCalls
        [CallEv.openAt t1, CallEv.closeAt t2]).ds.onOpenCount
      = s.onOpenCount + 1 := by
  refine ⟨rfl, rfl, ?_⟩
  have hle : ¬ (t1 + s.timeout ≤ t2) := by omega
  have hlt : ¬ (t2 + s.timeout < t1 + s.timeout) := by omega
  simp [Machine.runCalls, Machine.stepCall, Machine.fireDue,
        Machine.fireDueFuel, Machine.nextTimer, Machine.timers,
        Machine.callOpen, Machine.callClose, Machine.flush,
        Machine.flushFuel, Machine.fireTimer, Machine.init,
        Dropdown._open, Dropdown._close, hle, hlt, hcl, hbr]

/-- Concrete instance of `debounce_timers_independent`: a debounced close
at 100 inside the window of a debounced open at 0 does not cancel it. -/
theorem debounce_timers_independent_witness :
    ((Machine.init sampleClosed).callClose 3).pendingOpen =
      (Machine.init sampleClosed).pendingOpen ∧
    ((Machine.init sampleClosed).callOpen 3).pendingClose =
      (Machine.init sampleClosed).pendingClose ∧
    ((Machine.init sampleClosed).runCalls
        [CallEv.openAt 0, CallEv.closeAt 100]).ds.onOpenCount
      = sampleClosed.onOpenCount + 1 :=
  debounce_timers_independent 3 (Machine.init sampleClosed) sampleClosed 0 100
    (by decide) (by decide) rfl rfl
